import Mathlib

/-!
Verification of the session-acquisition logic of the Streamlit-in-Snowflake
tutorial repository.

The only original logic in the repository is the Session Resolver
`get_snowflake_session` in `src/app/utils/auth.py`:

```
def get_snowflake_session():
    try:
        session = get_active_session()
    except SnowparkSessionException as e:
        session = Session.builder.config("connection_name", CONNECTION_NAME).create()
    except Exception as e:
        print(f"Error getting snowflake session: {e}")
    return session
```

We embed it as a pure function of a per-call environment describing the
behaviour of the two external collaborators (`get_active_session` and the
session builder) and the configured profile name, returning the resolver's
outcome together with a trace of its observable effects (lookup calls,
builder calls with the exact config passed, diagnostic prints).

We also embed, as a static event model, the way each page of the app uses
the resolver and the returned handle, and the per-page environment-detection
block (`is_in_snowflake`).
-/

namespace SnowflakeApp

/-- Outcome of one call to `snowflake.snowpark.context.get_active_session()`:
it either returns a session, raises `SnowparkSessionException`, or raises
some other exception. -/
inductive LookupOutcome (S : Type) where
  | active (s : S)
  | raiseSnowparkSessionException (msg : String)
  | raiseOtherException (msg : String)
deriving DecidableEq, Repr

/-- Outcome of one call to `Session.builder.config(...).create()`: it either
returns a freshly built session or raises an exception (bad credentials,
unreachable platform, ...). -/
inductive BuildOutcome (S : Type) where
  | built (s : S)
  | raiseException (msg : String)
deriving DecidableEq, Repr

/-- The environment of one invocation of `get_snowflake_session`:
the behaviour of `get_active_session` on this call, the behaviour of the
session builder as a function of the config key/value pairs it receives,
and the module-level constant `CONNECTION_NAME` imported from `utils.config`
(auth.py line 4). -/
structure Env (S : Type) where
  get_active_session : LookupOutcome S
  builder_create : List (String × String) → BuildOutcome S
  CONNECTION_NAME : String

/-- What one invocation of `get_snowflake_session` produces for its caller:
`ok s` — the function returns session object `s`;
`unboundLocalError` — the function's control flow reaches `return session`
(auth.py line 13) with the local `session` never assigned, so the
undefined-reference failure is produced there, after the handlers have run,
and surfaces to the caller — not at the raise site inside the `try`;
`raised msg` — an exception raised inside the function propagates out
uncaught. -/
inductive ResolveResult (S : Type) where
  | ok (s : S)
  | unboundLocalError
  | raised (msg : String)
deriving DecidableEq, Repr

/-- Trace of the observable effects of one invocation of
`get_snowflake_session`: how many times `get_active_session` was called,
the config (key/value list) passed on each call to
`Session.builder....create()`, and the diagnostic lines printed. -/
structure Trace where
  lookupCalls : Nat
  builderCalls : List (List (String × String))
  printed : List String
deriving DecidableEq, Repr

/-- Embedding of `get_snowflake_session` (src/app/utils/auth.py lines 6-13).
The Python local `session` starts unbound; the `try` body assigns it from
`get_active_session()`; the `except SnowparkSessionException` handler assigns
it from `Session.builder.config("connection_name", CONNECTION_NAME).create()`
(whose exceptions are not caught by the sibling `except Exception` clause,
which only guards the `try` body); the `except Exception` handler only prints
and leaves `session` unbound, so the final `return session` fails with an
undefined-reference error. -/
def get_snowflake_session (env : Env S) : ResolveResult S × Trace :=
  match env.get_active_session with
  | .active s =>
      (.ok s, { lookupCalls := 1, builderCalls := [], printed := [] })
  | .raiseSnowparkSessionException _ =>
      match env.builder_create [("connection_name", env.CONNECTION_NAME)] with
      | .built s =>
          (.ok s,
           { lookupCalls := 1
             builderCalls := [[("connection_name", env.CONNECTION_NAME)]]
             printed := [] })
      | .raiseException m =>
          (.raised m,
           { lookupCalls := 1
             builderCalls := [[("connection_name", env.CONNECTION_NAME)]]
             printed := [] })
  | .raiseOtherException msg =>
      (.unboundLocalError,
       { lookupCalls := 1
         builderCalls := []
         printed := ["Error getting snowflake session: " ++ msg] })

/-- Modelled from the spec: `utils/config.py` is not under `src/`; per the
spec ("Configuration input: a named connection-profile identifier, sourced
from process-wide configuration") it binds the single constant
`CONNECTION_NAME`, fixed for the lifetime of the process, which
`utils.auth` imports once at module import (auth.py line 4). -/
structure ProcessConfig where
  CONNECTION_NAME : String
deriving DecidableEq, Repr

/-- The environment a given invocation sees in a process with configuration
`cfg`: the lookup outcome and builder behaviour vary per call, but
`CONNECTION_NAME` is the process-wide constant bound at import. -/
def envOfProcess (cfg : ProcessConfig) (lookup : LookupOutcome S)
    (builder : List (String × String) → BuildOutcome S) : Env S :=
  { get_active_session := lookup
    builder_create := builder
    CONNECTION_NAME := cfg.CONNECTION_NAME }

/-- Embedding of the per-page environment-detection block
(src/app/app.py lines 30-36, pages/5 lines 19-25, pages/7 lines 24-30):

```
is_in_snowflake = False
try:
    from snowflake.snowpark.context import get_active_session
    get_active_session()
    is_in_snowflake = True
except:
    pass
```

The bare `except:` catches every exception type, so the block never raises;
it yields the final value of `is_in_snowflake`. -/
def detect_is_in_snowflake (lookup : LookupOutcome S) : Except String Bool :=
  match lookup with
  | .active _ => .ok true
  | .raiseSnowparkSessionException _ => .ok false
  | .raiseOtherException _ => .ok false

/-- Events of a page script relevant to session resolution, in program
(textual) order: a call to the Session Resolver `get_snowflake_session`,
a direct `get_active_session()` call in the environment-detection block,
a data operation issued through the bound `session` handle
(`session.sql`, `session.table`, `session.create_dataframe`,
`session.write_pandas`, `session.file`, `session.get_current_*`), or a
rebinding of the `session` name after resolution. Occurrences inside
`st.code("""...""")` string literals are documentation text, not code, and
are excluded (verified by tokenizing each file). -/
inductive PageEvent where
  | resolveSession
  | envDetectLookup
  | handleDataOp
  | rebindHandle
deriving DecidableEq, Repr

/-- src/app/app.py: resolver call at line 23; env-detection lookup at
line 33; no data operation through the handle. -/
def app_events : List PageEvent :=
  [.resolveSession, .envDetectLookup]

/-- src/app/pages/1 (Basics): no resolver call, no session use. -/
def basics_events : List PageEvent := []

/-- src/app/pages/2 (Session State): no resolver call, no session use. -/
def session_state_events : List PageEvent := []

/-- src/app/pages/3 (Caching): resolver call at line 113; handle data
operations at lines 130, 202, 445. -/
def caching_events : List PageEvent :=
  [.resolveSession] ++ List.replicate 3 .handleDataOp

/-- src/app/pages/4 (Layouts and Design): resolver call at line 22; handle
data operations at lines 74, 124, 137, 148, 216, 254, 309, 333, 352, 392,
404, 433, 458, 486. -/
def layouts_events : List PageEvent :=
  [.resolveSession] ++ List.replicate 14 .handleDataOp

/-- src/app/pages/5 (Snowflake Integration): resolver call at line 16;
env-detection lookup at line 22; handle data operations at lines 124, 125,
126, 127, 176, 269, 276, 297, 418, 528, 577, 631. -/
def integration_events : List PageEvent :=
  [.resolveSession, .envDetectLookup] ++ List.replicate 12 .handleDataOp

/-- src/app/pages/6 (Advanced Patterns): resolver call at line 492; handle
data operations at lines 529, 618, 627, 636, 735, 744, 756, 757, 771, 800,
866. -/
def advanced_events : List PageEvent :=
  [.resolveSession] ++ List.replicate 11 .handleDataOp

/-- src/app/pages/7 (AI with Cortex): resolver call at line 21;
env-detection lookup at line 27; handle data operations at lines 72, 87,
159, 168, 177, 203, 225, 287, 352, 430, 497, 577, 586, 612, 635. -/
def cortex_events : List PageEvent :=
  [.resolveSession, .envDetectLookup] ++ List.replicate 15 .handleDataOp

/-- All page scripts of the app with their session-relevant event lists. -/
def pages : List (String × List PageEvent) :=
  [("app.py", app_events),
   ("pages/1_Basics.py", basics_events),
   ("pages/2_Session_State.py", session_state_events),
   ("pages/3_Caching.py", caching_events),
   ("pages/4_Layouts_and_Design.py", layouts_events),
   ("pages/5_Snowflake_Integration.py", integration_events),
   ("pages/6_Advanced_Patterns.py", advanced_events),
   ("pages/7_AI_with_Cortex.py", cortex_events)]

/-- Number of Session Resolver invocations in a page's event list. -/
def resolveCount (es : List PageEvent) : Nat :=
  es.countP (· = .resolveSession)

/-- `true` when no data operation through the handle occurs before the first
Session Resolver invocation of the page. -/
def noDataOpBeforeResolve : List PageEvent → Bool
  | [] => true
  | .handleDataOp :: _ => false
  | .resolveSession :: _ => true
  | .envDetectLookup :: rest => noDataOpBeforeResolve rest
  | .rebindHandle :: rest => noDataOpBeforeResolve rest

/-- A concrete invocation environment where an active session (7) is
available; connection profile "LOCAL_DEV". -/
def envActive : Env Nat :=
  { get_active_session := .active 7
    builder_create := fun _ => .built 99
    CONNECTION_NAME := "LOCAL_DEV" }

/-- A concrete invocation environment where the lookup raises
`SnowparkSessionException` and the builder succeeds, building session 99;
connection profile "LOCAL_DEV". -/
def envFallback : Env Nat :=
  { get_active_session := .raiseSnowparkSessionException "no active session"
    builder_create := fun _ => .built 99
    CONNECTION_NAME := "LOCAL_DEV" }

/-- A concrete invocation environment where the lookup raises an exception
that is not a `SnowparkSessionException`. -/
def envOther : Env Nat :=
  { get_active_session := .raiseOtherException "boom"
    builder_create := fun _ => .built 99
    CONNECTION_NAME := "LOCAL_DEV" }

/-- A concrete invocation environment where the lookup raises
`SnowparkSessionException` and the builder itself raises. -/
def envBuilderFails : Env Nat :=
  { get_active_session := .raiseSnowparkSessionException "no active session"
    builder_create := fun _ => .raiseException "bad credentials"
    CONNECTION_NAME := "LOCAL_DEV" }

/-- Claim C1: when `get_active_session` returns a session without raising,
the resolver returns exactly that session object unmodified and never
invokes the connection builder. -/
theorem C1_active_session_returned_unmodified (S : Type) (env : Env S) (s : S)
    (h : env.get_active_session = .active s) :
    get_snowflake_session env =
      (.ok s, { lookupCalls := 1, builderCalls := [], printed := [] }) := by
  simp [get_snowflake_session, h]

/-- Claim C1 witness at a concrete environment with active session 7. -/
theorem C1_witness :
    envActive.get_active_session = .active 7 ∧
    get_snowflake_session envActive =
      (.ok 7, { lookupCalls := 1, builderCalls := [], printed := [] }) :=
  ⟨rfl, C1_active_session_returned_unmodified Nat envActive 7 rfl⟩

/-- Claim C2: when `get_active_session` raises `SnowparkSessionException`,
the resolver calls the builder exactly once, with the single config pair
`("connection_name", CONNECTION_NAME)`, and returns the builder's result
unmodified; and on every invocation, whatever the branch, the builder is
called at most once. -/
theorem C2_fallback_builds_once_with_connection_name :
    (∀ (S : Type) (env : Env S) (msg : String),
      env.get_active_session = .raiseSnowparkSessionException msg →
        (get_snowflake_session env).2.builderCalls
            = [[("connection_name", env.CONNECTION_NAME)]] ∧
        ∀ s, env.builder_create [("connection_name", env.CONNECTION_NAME)]
            = .built s →
          (get_snowflake_session env).1 = .ok s)
    ∧ ∀ (S : Type) (env : Env S),
        ((get_snowflake_session env).2.builderCalls).length ≤ 1 := by
  constructor
  · intro S env msg h
    constructor
    · cases hb : env.builder_create [("connection_name", env.CONNECTION_NAME)] <;>
        simp [get_snowflake_session, h, hb]
    · intro s hs
      simp [get_snowflake_session, h, hs]
  · intro S env
    cases hl : env.get_active_session with
    | active s => simp [get_snowflake_session, hl]
    | raiseSnowparkSessionException m =>
        cases hb : env.builder_create [("connection_name", env.CONNECTION_NAME)] <;>
          simp [get_snowflake_session, hl, hb]
    | raiseOtherException m => simp [get_snowflake_session, hl]

/-- Claim C2 witness: profile "LOCAL_DEV" configured, lookup unavailable:
the builder receives exactly `connection_name="LOCAL_DEV"` and its result
(99) is returned unmodified. -/
theorem C2_witness :
    (get_snowflake_session envFallback).2.builderCalls
        = [[("connection_name", "LOCAL_DEV")]] ∧
    (get_snowflake_session envFallback).1 = .ok 99 := by
  have h := C2_fallback_builds_once_with_connection_name.1 Nat envFallback
    "no active session" rfl
  exact ⟨h.1, h.2 99 rfl⟩

/-- Claim C3: when `get_active_session` raises an exception that is not a
`SnowparkSessionException`, the resolver prints the diagnostic, does not
retry the lookup (exactly one lookup call), does not call the builder, and
does not re-raise: its outcome is the undefined-reference failure of
`return session` with the local still unbound, produced after the handlers
rather than at the raise site. -/
theorem C3_other_exception_swallowed (S : Type) (env : Env S) (msg : String)
    (h : env.get_active_session = .raiseOtherException msg) :
    get_snowflake_session env =
      (.unboundLocalError,
       { lookupCalls := 1, builderCalls := [],
         printed := ["Error getting snowflake session: " ++ msg] }) ∧
    ∀ m, (get_snowflake_session env).1 ≠ .raised m := by
  refine ⟨by simp [get_snowflake_session, h], ?_⟩
  intro m
  simp [get_snowflake_session, h]

/-- Claim C3 witness at a concrete environment whose lookup raises a
non-Snowpark exception "boom". -/
theorem C3_witness :
    get_snowflake_session envOther =
      (.unboundLocalError,
       { lookupCalls := 1, builderCalls := [],
         printed := ["Error getting snowflake session: boom"] }) ∧
    ∀ m, (get_snowflake_session envOther).1 ≠ .raised m :=
  C3_other_exception_swallowed Nat envOther "boom" rfl

/-- Claim C4: on the fallback path, an exception raised by the builder call
propagates uncaught out of the resolver (it is not captured by the
`except Exception` handler: no diagnostic is printed) and no session is
produced. -/
theorem C4_builder_exception_propagates (S : Type) (env : Env S)
    (msg m : String)
    (hl : env.get_active_session = .raiseSnowparkSessionException msg)
    (hb : env.builder_create [("connection_name", env.CONNECTION_NAME)]
        = .raiseException m) :
    (get_snowflake_session env).1 = .raised m ∧
    (get_snowflake_session env).2.printed = [] ∧
    ∀ s, (get_snowflake_session env).1 ≠ .ok s := by
  simp [get_snowflake_session, hl, hb]

/-- Claim C4 witness at a concrete environment where the builder raises
"bad credentials". -/
theorem C4_witness :
    (get_snowflake_session envBuilderFails).1 = .raised "bad credentials" ∧
    (get_snowflake_session envBuilderFails).2.printed = [] ∧
    ∀ s, (get_snowflake_session envBuilderFails).1 ≠ .ok s :=
  C4_builder_exception_propagates Nat envBuilderFails "no active session"
    "bad credentials" rfl rfl

/-- Claim C5: the builder fallback is triggered exactly when the lookup
raises `SnowparkSessionException`; every other lookup exception yields no
fallback and no re-raise, only the diagnostic print. -/
theorem C5_fallback_iff_snowpark_exception (S : Type) (env : Env S) :
    ((get_snowflake_session env).2.builderCalls ≠ [] ↔
      ∃ msg, env.get_active_session = .raiseSnowparkSessionException msg) ∧
    ∀ msg, env.get_active_session = .raiseOtherException msg →
      (get_snowflake_session env).2.builderCalls = [] ∧
      (∀ m, (get_snowflake_session env).1 ≠ .raised m) ∧
      (get_snowflake_session env).2.printed
        = ["Error getting snowflake session: " ++ msg] := by
  cases hl : env.get_active_session with
  | active s => simp [get_snowflake_session, hl]
  | raiseSnowparkSessionException m =>
      cases hb : env.builder_create [("connection_name", env.CONNECTION_NAME)] <;>
        simp [get_snowflake_session, hl, hb]
  | raiseOtherException m => simp [get_snowflake_session, hl]

/-- Claim C5 witness: at a concrete environment whose lookup raises a
non-Snowpark exception, there is no fallback, no re-raise, and exactly the
diagnostic print. -/
theorem C5_witness :
    (get_snowflake_session envOther).2.builderCalls = [] ∧
    (∀ m, (get_snowflake_session envOther).1 ≠ .raised m) ∧
    (get_snowflake_session envOther).2.printed
      = ["Error getting snowflake session: boom"] :=
  (C5_fallback_iff_snowpark_exception Nat envOther).2 "boom" rfl

/-- Claim C6: the resolver keeps no state across calls: two invocations,
each seeing the same healthy active session, make two lookup calls in
total, zero builder calls, and both return that same session object. -/
theorem C6_resolver_stateless_idempotent (S : Type) (env1 env2 : Env S)
    (s : S)
    (h1 : env1.get_active_session = .active s)
    (h2 : env2.get_active_session = .active s) :
    (get_snowflake_session env1).1 = .ok s ∧
    (get_snowflake_session env2).1 = .ok s ∧
    (get_snowflake_session env1).2.lookupCalls
        + (get_snowflake_session env2).2.lookupCalls = 2 ∧
    (get_snowflake_session env1).2.builderCalls = [] ∧
    (get_snowflake_session env2).2.builderCalls = [] := by
  simp [get_snowflake_session, h1, h2]

/-- Claim C6 witness: two invocations at the same concrete healthy
environment. -/
theorem C6_witness :
    (get_snowflake_session envActive).1 = .ok 7 ∧
    (get_snowflake_session envActive).1 = .ok 7 ∧
    (get_snowflake_session envActive).2.lookupCalls
        + (get_snowflake_session envActive).2.lookupCalls = 2 ∧
    (get_snowflake_session envActive).2.builderCalls = [] ∧
    (get_snowflake_session envActive).2.builderCalls = [] :=
  C6_resolver_stateless_idempotent Nat envActive envActive 7 rfl rfl

/-- Claim C7 counterexample: the claim "each page calls the Session
Resolver once" is false: pages 1 (Basics) and 2 (Session State) contain no
resolver call at all. -/
theorem C7_counterexample :
    ¬ ∀ p ∈ pages, resolveCount p.2 = 1 := by
  decide

/-- Claim C7, amended: every page performs at most one resolution attempt;
no page performs a data operation through the handle before resolving; every
page that performs data operations through the handle resolves exactly once;
and no page rebinds the handle after resolution. -/
theorem C7_at_most_one_resolution_per_page :
    ∀ p ∈ pages,
      resolveCount p.2 ≤ 1 ∧
      noDataOpBeforeResolve p.2 = true ∧
      (PageEvent.handleDataOp ∈ p.2 → resolveCount p.2 = 1) ∧
      PageEvent.rebindHandle ∉ p.2 := by
  decide

/-- Claim C7 witness at the Snowflake Integration page. -/
theorem C7_witness :
    resolveCount integration_events ≤ 1 ∧
    noDataOpBeforeResolve integration_events = true ∧
    (PageEvent.handleDataOp ∈ integration_events →
      resolveCount integration_events = 1) ∧
    PageEvent.rebindHandle ∉ integration_events :=
  C7_at_most_one_resolution_per_page
    ("pages/5_Snowflake_Integration.py", integration_events) (by decide)

/-- Claim C8: the diagnostic print fires exactly in the
unclassified-exception branch; on every invocation that returns a session
(either success path) nothing is printed. -/
theorem C8_success_paths_silent (S : Type) (env : Env S) :
    ((get_snowflake_session env).2.printed ≠ [] ↔
      ∃ msg, env.get_active_session = .raiseOtherException msg) ∧
    ∀ s, (get_snowflake_session env).1 = .ok s →
      (get_snowflake_session env).2.printed = [] := by
  cases hl : env.get_active_session with
  | active s => simp [get_snowflake_session, hl]
  | raiseSnowparkSessionException m =>
      cases hb : env.builder_create [("connection_name", env.CONNECTION_NAME)] <;>
        simp [get_snowflake_session, hl, hb]
  | raiseOtherException m => simp [get_snowflake_session, hl]

/-- Claim C8 witness: a successfully resolved session (fallback path,
builder succeeds) is returned silently. -/
theorem C8_witness :
    (get_snowflake_session envFallback).2.printed = [] :=
  (C8_success_paths_silent Nat envFallback).2 99 rfl

/-- Claim C9: `CONNECTION_NAME` is the process-wide constant bound once at
import; any two invocations in the same process that take the fallback path
pass the builder the same profile name. -/
theorem C9_connection_name_fixed_per_process (S : Type) (cfg : ProcessConfig)
    (l1 l2 : LookupOutcome S)
    (b1 b2 : List (String × String) → BuildOutcome S)
    (m1 m2 : String)
    (h1 : l1 = .raiseSnowparkSessionException m1)
    (h2 : l2 = .raiseSnowparkSessionException m2) :
    (get_snowflake_session (envOfProcess cfg l1 b1)).2.builderCalls
        = [[("connection_name", cfg.CONNECTION_NAME)]] ∧
    (get_snowflake_session (envOfProcess cfg l2 b2)).2.builderCalls
        = (get_snowflake_session (envOfProcess cfg l1 b1)).2.builderCalls := by
  subst h1
  subst h2
  cases hb1 : b1 [("connection_name", cfg.CONNECTION_NAME)] <;>
    cases hb2 : b2 [("connection_name", cfg.CONNECTION_NAME)] <;>
      simp [get_snowflake_session, envOfProcess, hb1, hb2]

/-- Claim C9 witness: two fallback invocations in a process configured with
"LOCAL_DEV" pass the builder the same profile name. -/
theorem C9_witness :
    (get_snowflake_session
        (envOfProcess ⟨"LOCAL_DEV"⟩
          (LookupOutcome.raiseSnowparkSessionException "no active session")
          (fun _ => BuildOutcome.built (7 : Nat)))).2.builderCalls
      = [[("connection_name", "LOCAL_DEV")]] ∧
    (get_snowflake_session
        (envOfProcess (S := Nat) ⟨"LOCAL_DEV"⟩
          (LookupOutcome.raiseSnowparkSessionException "again")
          (fun _ => BuildOutcome.raiseException "bad credentials"))).2.builderCalls
      = (get_snowflake_session
          (envOfProcess ⟨"LOCAL_DEV"⟩
            (LookupOutcome.raiseSnowparkSessionException "no active session")
            (fun _ => BuildOutcome.built (7 : Nat)))).2.builderCalls :=
  C9_connection_name_fixed_per_process Nat ⟨"LOCAL_DEV"⟩ _ _
    (fun _ => BuildOutcome.built 7)
    (fun _ => BuildOutcome.raiseException "bad credentials")
    "no active session" "again" rfl rfl

/-- Claim C10: the environment-detection block never raises: every lookup
exception is swallowed by the bare `except`, `is_in_snowflake` ends up
`true` exactly when the lookup returned without raising and `false`
otherwise. -/
theorem C10_detection_block_never_raises (S : Type)
    (lookup : LookupOutcome S) :
    (∃ b, detect_is_in_snowflake lookup = Except.ok b) ∧
    (detect_is_in_snowflake lookup = Except.ok true ↔
      ∃ s, lookup = .active s) ∧
    (detect_is_in_snowflake lookup = Except.ok false ↔
      ∀ s, lookup ≠ .active s) := by
  cases lookup <;> simp [detect_is_in_snowflake]

/-- Claim C10 witness at a concrete lookup raising an arbitrary exception:
the block completes and leaves the flag false. -/
theorem C10_witness :
    (∃ b, detect_is_in_snowflake (LookupOutcome.raiseOtherException
        (S := Nat) "boom") = Except.ok b) ∧
    (detect_is_in_snowflake (LookupOutcome.raiseOtherException
        (S := Nat) "boom") = Except.ok true ↔
      ∃ s, LookupOutcome.raiseOtherException (S := Nat) "boom"
        = .active s) ∧
    (detect_is_in_snowflake (LookupOutcome.raiseOtherException
        (S := Nat) "boom") = Except.ok false ↔
      ∀ s, LookupOutcome.raiseOtherException (S := Nat) "boom"
        ≠ .active s) :=
  C10_detection_block_never_raises Nat
    (LookupOutcome.raiseOtherException "boom")

end SnowflakeApp
